import Mathlib

/-!
# Verification of the `tbl` launcher control plane

A shallow embedding of `src/main.rs` of the `tbl` launcher ("tiny
self-bootstrapping web launcher").  Pure request handlers are embedded as
Lean functions on an explicit application state; the effectful startup and
stop paths of `main` are embedded as functions over an explicit environment
recording the outcomes of the I/O probes they perform (TCP connect probes,
TLS material loading, listener binding, the persisted `run/pid.yaml`
registry).  Machine integers (`u16` ports) are modelled as `Nat` with
explicit saturation where the source saturates.

Network and filesystem effects are modelled at the level the source
observes them: a probe function `Nat → Bool` stands for the result of
`TcpStream::connect_timeout` against each port, an `Option RunInfo` stands
for the parsed content of `run/pid.yaml` (the source's `load_run_info`
fails soft, so a corrupt or missing file is `none`), and `Bool` flags stand
for the success of binding and of loading TLS material.
-/

set_option autoImplicit false

namespace Tbl

/-! ## Data model

`RunInfo` mirrors `struct RunInfo` (main.rs:100-105): the persisted run
record `{pid, port, auth_token, tls}`. -/

structure RunInfo where
  pid : Nat
  port : Nat
  auth_token : String
  tls : Bool
deriving DecidableEq, Repr

/-- Mirrors `struct TblConfig` (main.rs:73-81). -/
structure TblConfig where
  git_url : Option String := none
  addr : Option String := none
  tls_cert : Option String := none
  tls_key : Option String := none
  basic_user : Option String := none
  basic_pass : Option String := none
deriving DecidableEq, Repr

/-- Mirrors `struct AppState` (main.rs:87-93).  The `web_root` and
`config_dir` paths are carried by the source only for the file-serving and
git collaborators, which are outside the claims; the one-shot shutdown
sender `tokio::sync::Mutex<Option<oneshot::Sender<()>>>` is modelled as
`Option Unit` (the mutex serialises access; `take` sets it to `none`). -/
structure AppState where
  auth_token : String
  config : TblConfig
  shutdown_tx : Option Unit
deriving DecidableEq, Repr

/-- The parts of an HTTP request the embedded handlers inspect: the
`Cookie` header and the `Authorization` header (absent headers are
`none`). -/
structure Headers where
  cookie : Option String := none
  authorization : Option String := none
deriving DecidableEq, Repr

/-- An HTTP response as the handlers build it: status code and body.
Response headers (content types, `WWW-Authenticate`) are elided; the
status/body pairs of the source are pairwise distinct, so no information
the claims need is lost. -/
structure Response where
  status : Nat
  body : String
deriving DecidableEq, Repr

/-- Mirrors `struct BootstrapQuery` (main.rs:111-114): the decoded
`?token=` query parameter, absent when the URL carries none. -/
structure BootstrapQuery where
  token : Option String
deriving DecidableEq, Repr

/-! ## String helpers

Transliterations of the Rust standard-library string operations the source
uses, at the `List Char` level so that they compute and admit induction:
`str::split(';')`, `str::trim`, `str::splitn(2, c)`. -/

/-- Rust `s.split(sep)`: the groups between occurrences of `sep`
(`"".split(c)` is `[""]`, separators at the ends produce empty groups). -/
def splitList (sep : Char) : List Char → List (List Char)
  | [] => [[]]
  | c :: cs =>
    if c = sep then [] :: splitList sep cs
    else
      match splitList sep cs with
      | [] => [[c]]
      | g :: gs => (c :: g) :: gs

/-- Rust `str::trim`: strip whitespace from both ends. -/
def trimList (l : List Char) : List Char :=
  ((l.dropWhile Char.isWhitespace).reverse.dropWhile Char.isWhitespace).reverse

/-- Rust `s.splitn(2, sep)` in the shape the source consumes it: `some
(before, after)` when `sep` occurs (split at the first occurrence), `none`
when it does not (the source's `if let (Some name, Some value)` then
fails). -/
def splitOnceChar (sep : Char) : List Char → Option (List Char × List Char)
  | [] => none
  | c :: cs =>
    if c = sep then some ([], cs)
    else (splitOnceChar sep cs).map (fun p => (c :: p.1, p.2))

/-- Rust `l.starts_with(pat)` on character lists. -/
def listStartsWith : List Char → List Char → Bool
  | _, [] => true
  | [], _ :: _ => false
  | c :: cs, p :: ps => c = p && listStartsWith cs ps

/-! ## Base64 (the `base64` crate's `STANDARD` engine, decode direction)

`check_basic_auth` (main.rs:633) calls `BASE64.decode` on the credential
part of the `Authorization` header.  The crate is an external dependency;
its canonical decoding is modelled here: the standard alphabet, four-char
chunks, `=` padding required to a multiple of four, non-canonical trailing
bits rejected. -/

def b64Val (c : Char) : Option Nat :=
  if 'A' ≤ c ∧ c ≤ 'Z' then some (c.toNat - 'A'.toNat)
  else if 'a' ≤ c ∧ c ≤ 'z' then some (c.toNat - 'a'.toNat + 26)
  else if '0' ≤ c ∧ c ≤ '9' then some (c.toNat - '0'.toNat + 52)
  else if c = '+' then some 62
  else if c = '/' then some 63
  else none

def b64Decode : List Char → Option (List Nat)
  | [] => some []
  | a :: b :: c :: d :: rest => do
    let va ← b64Val a
    let vb ← b64Val b
    if c = '=' then
      if d = '=' ∧ rest = [] ∧ vb % 16 = 0 then
        some [va * 4 + vb / 16]
      else none
    else do
      let vc ← b64Val c
      if d = '=' then
        if rest = [] ∧ vc % 4 = 0 then
          some [va * 4 + vb / 16, vb % 16 * 16 + vc / 4]
        else none
      else do
        let vd ← b64Val d
        let tail ← b64Decode rest
        some ((va * 4 + vb / 16) :: (vb % 16 * 16 + vc / 4) :: (vc % 4 * 64 + vd) :: tail)
  | _ => none

/-- Rust `String::from_utf8` restricted to the ASCII plane (the
credentials the claims exercise are ASCII; multi-byte sequences are out of
the claims' scope and modelled as failure). -/
def from_utf8_ascii (bytes : List Nat) : Option String :=
  if bytes.all (· < 128) then some (String.mk (bytes.map Char.ofNat))
  else none

/-! ## Authentication helpers (main.rs:597-648) -/

/-- Mirrors `extract_token_from_cookie` (main.rs:603-617): scan the
`Cookie` header's `;`-separated parts for `tbl_token=value`. -/
def findTblToken : List (List Char) → Option String
  | [] => none
  | part :: rest =>
    match splitOnceChar '=' (trimList part) with
    | some (name, value) =>
      if name = "tbl_token".data then some (String.mk value)
      else findTblToken rest
    | none => findTblToken rest

def extract_token_from_cookie (headers : Headers) : Option String :=
  match headers.cookie with
  | none => none
  | some s => findTblToken (splitList ';' s.data)

/-- Mirrors `check_basic_auth` (main.rs:619-648): `Authorization: Basic
<base64(user:pass)>`, compared by plain equality against the configured
credentials. -/
def check_basic_auth (headers : Headers) (user pass : String) : Bool :=
  match headers.authorization with
  | none => false
  | some header_val =>
    if !listStartsWith header_val.data "Basic ".data then false
    else
      match b64Decode (header_val.data.drop 6) with
      | none => false
      | some decoded =>
        match from_utf8_ascii decoded with
        | none => false
        | some creds =>
          match splitOnceChar ':' creds.data with
          | some (u, p) => u == user.data && p == pass.data
          | none => creds.data == user.data && List.nil == pass.data

/-! ## Port detection (main.rs:456-487) -/

/-- The network environment a `tbl` invocation observes: whether
`"host:port"` parses as a numeric `SocketAddr` (for a fixed host this is
independent of the decimal port, so it is a single flag), and which ports
currently accept a TCP connection (`TcpStream::connect_timeout`
succeeds). -/
structure NetEnv where
  hostParses : Bool
  occupied : Nat → Bool

/-- Rust `port.saturating_add(1)` on `u16`. -/
def satAdd (port : Nat) : Nat := min (port + 1) 65535

/-- The `for _ in 0..100` loop body of `find_available_port`
(main.rs:477-485), with the remaining attempt count as fuel: probe only
when the address parses, return the first port whose connect fails,
otherwise advance with saturation; when attempts run out, fall back to
`base_port`. -/
def findLoop (env : NetEnv) (base_port : Nat) : Nat → Nat → Nat
  | 0, _ => base_port
  | n + 1, port =>
    if env.hostParses && !env.occupied port then port
    else findLoop env base_port n (satAdd port)

/-- Mirrors `find_available_port` (main.rs:475-487). -/
def find_available_port (env : NetEnv) (base_port : Nat) : Nat :=
  findLoop env base_port 100 base_port

/-- The port probed on the `k`-th loop iteration: `k` saturating
increments above the base. -/
def probeAt (base : Nat) : Nat → Nat
  | 0 => base
  | k + 1 => satAdd (probeAt base k)

/-! ## The bootstrap success page (main.rs:850-956)

`bootstrap_page_html` is a `format!` with a single `{token}` splice, i.e.
the concatenation of a constant head, the token, and a constant tail.  The
tail is kept in two named pieces so the cookie-setting script fragment is
addressable: `bsCookieSet` closes the `const token = "…"` declaration and
assigns `document.cookie`, and `bsTail` holds the deferred
`window.location.replace("/")` redirect and the closing markup. -/

def bsHead : String := "<!doctype html>
<html lang=\"en\">
<head>
  <meta charset=\"utf-8\" />
  <title>tbl – bootstrapping…</title>
  <meta name=\"viewport\" content=\"width=device-width, initial-scale=1\" />
  <style>
    :root \x7b
      color-scheme: light dark;
      --bg: #0b1020;
      --fg: #f5f5f7;
      --accent: #4f46e5;
      --accent-soft: rgba(79,70,229,0.16);
      --border-subtle: rgba(148,163,184,0.35);
    \x7d
    * \x7b
      box-sizing: border-box;
      font-family: system-ui, -apple-system, BlinkMacSystemFont, \"SF Pro Text\",
                   \"Segoe UI\", sans-serif;
    \x7d
    body \x7b
      margin: 0;
      min-height: 100vh;
      display: flex;
      align-items: center;
      justify-content: center;
      background: radial-gradient(circle at top, #1e293b, #020617 55%);
      color: var(--fg);
    \x7d
    .card \x7b
      background: rgba(15,23,42,0.95);
      border-radius: 18px;
      padding: 24px 28px;
      box-shadow: 0 18px 40px rgba(15,23,42,0.85);
      max-width: 420px;
      width: 100%;
      border: 1px solid var(--border-subtle);
      backdrop-filter: blur(18px);
    \x7d
    .badge \x7b
      display: inline-flex;
      align-items: center;
      gap: 8px;
      font-size: 11px;
      text-transform: uppercase;
      letter-spacing: 0.12em;
      padding: 4px 10px;
      border-radius: 999px;
      background: var(--accent-soft);
      color: #c7d2fe;
    \x7d
    .pill-dot \x7b
      width: 6px;
      height: 6px;
      border-radius: 999px;
      background: #22c55e;
      box-shadow: 0 0 0 4px rgba(34,197,94,0.35);
    \x7d
    h1 \x7b
      margin: 14px 0 6px;
      font-size: 22px;
      font-weight: 600;
    \x7d
    p \x7b
      margin: 6px 0 0;
      font-size: 13px;
      opacity: 0.8;
    \x7d
    .spinner \x7b
      margin-top: 18px;
      width: 26px;
      height: 26px;
      border-radius: 999px;
      border: 3px solid rgba(148,163,184,0.4);
      border-top-color: var(--accent);
      animation: spin 0.8s linear infinite;
    \x7d
    @keyframes spin \x7b
      to \x7b transform: rotate(360deg); \x7d
    \x7d
  </style>
</head>
<body>
  <div class=\"card\">
    <div class=\"badge\">
      <span class=\"pill-dot\"></span>
      <span>LOCAL SESSION</span>
    </div>
    <h1>Bootstrapping tbl</h1>
    <p>We're securing your local API and loading your workspace.</p>
    <div class=\"spinner\"></div>
  </div>
  <script>
    (function() \x7b
      "

def bsCookieSet : String :=
  "\";\n      document.cookie = \"tbl_token=\" + token + \"; SameSite=Lax; Path=/\";"

def bsTail : String := "
      setTimeout(function() \x7b
        window.location.replace(\"/\");
      \x7d, 400);
    \x7d)();
  </script>
</body>
</html>"

/-- Mirrors `bootstrap_page_html` (main.rs:850-956): the single `{token}`
splice of the `format!` sits between the constant head and the constant
cookie-setting/redirecting script tail. -/
def bootstrap_page_html (token : String) : String :=
  bsHead ++ "const token = \"" ++ token ++ bsCookieSet ++ bsTail

/-! ## HTTP handlers (main.rs:654-795) -/

/-- The `if let (Some(user), Some(pass))` basic-auth gate shared verbatim
by `ping_handler` (main.rs:732-741) and `shutdown_handler`
(main.rs:763-772): when both credentials are configured and the check
fails, the 401 basic-auth response short-circuits the handler. -/
def requireBasicAuth (st : AppState) (headers : Headers) : Option Response :=
  match st.config.basic_user, st.config.basic_pass with
  | some user, some pass =>
    if !check_basic_auth headers user pass then
      some ⟨401, "basic auth required"⟩
    else none
  | _, _ => none

/-- Mirrors `bootstrap_handler` (main.rs:665-678). -/
def bootstrap_handler (st : AppState) (q : BootstrapQuery) : Response :=
  match q.token with
  | none => ⟨400, "missing token in query"⟩
  | some token =>
    if token ≠ st.auth_token then ⟨403, "invalid bootstrap token"⟩
    else ⟨200, bootstrap_page_html token⟩

/-- Mirrors `ping_handler` (main.rs:730-758); the success body is the
serde serialization of `PingResponse \x7b status: "ok" \x7d`. -/
def ping_handler (st : AppState) (headers : Headers) : Response :=
  match requireBasicAuth st headers with
  | some r => r
  | none =>
    let token := extract_token_from_cookie headers
    if token ≠ some st.auth_token then ⟨401, "missing or invalid auth cookie"⟩
    else ⟨200, "\x7b\"status\":\"ok\"\x7d"⟩

/-- Mirrors `shutdown_handler` (main.rs:761-795).  Besides the response it
returns the updated state (the one-shot sender is `take`n on success) and
whether a shutdown signal was actually sent this call (`take` yielded the
sender; a `take` on the already-emptied slot is a no-op). -/
def shutdown_handler (st : AppState) (headers : Headers) :
    Response × AppState × Bool :=
  match requireBasicAuth st headers with
  | some r => (r, st, false)
  | none =>
    if extract_token_from_cookie headers ≠ some st.auth_token then
      (⟨401, "missing or invalid auth cookie"⟩, st, false)
    else
      (⟨200, "\x7b\"status\":\"shutting_down\"\x7d"⟩,
        { st with shutdown_tx := none }, st.shutdown_tx.isSome)

/-! ## The daemonized start path of `main` (main.rs:161-381)

The daemonized child (the `TBL_DAEMONIZED` branch has already been taken)
either attaches to a live instance, or proceeds to a fresh start.  The
environment records the outcome of each effect `main` performs, in program
order. -/

/-- The connection URL printed for an already-running instance
(main.rs:213-217): `format!("{}://127.0.0.1:{}/bootstrap?token={}", …)`. -/
def runUrl (info : RunInfo) : String :=
  let scheme := if info.tls then "https" else "http"
  scheme ++ "://127.0.0.1:" ++ toString info.port ++ "/bootstrap?token=" ++ info.auth_token

/-- Everything a daemonized start invocation observes from the outside
world, in the order `main` consults it. -/
structure StartEnv where
  /-- Parsed content of `run/pid.yaml` (`load_run_info` fails soft, so a
  missing, unreadable or malformed file is `none`). -/
  prior : Option RunInfo
  /-- `port_is_open p`: a TCP connect to `127.0.0.1:p` within 200ms
  succeeds (main.rs:456-459). -/
  probe127 : Nat → Bool
  /-- Effective `git_url` after CLI/env/file merging. -/
  git_url : Option String
  /-- `ensure_git_available()` and `ensure_repo(…)` both succeed. -/
  gitOk : Bool
  /-- Host-parse flag and occupancy probes for `find_available_port`. -/
  net : NetEnv
  /-- Base port from `split_host_port` of the effective address. -/
  basePort : Nat
  tls_cert : Option String
  tls_key : Option String
  /-- `RustlsConfig::from_pem_file` succeeds (main.rs:343-345). -/
  tlsLoadOk : Bool
  /-- Binding a listener on the chosen address succeeds. -/
  bindOk : Bool
  /-- The fresh `generate_token()` value. -/
  auth_token : String
  /-- `std::process::id()`. -/
  pid : Nat

/-- How a daemonized start invocation ends. -/
inductive StartResult where
  /-- A live instance was detected; its URL was printed and the process
  exited 0 without binding (main.rs:210-239). -/
  | alreadyRunning (url : String)
  /-- `ensure_git_available`/`ensure_repo` failed: `Err` return, exit
  non-zero (main.rs:247-256). -/
  | fatalGit
  /-- `"{host}:{port}".parse::<SocketAddr>()` failed: `Err` return, exit
  non-zero (main.rs:286-288). -/
  | fatalAddr
  /-- TLS material could not be loaded: `Err` return, exit non-zero
  (main.rs:343-345). -/
  | fatalTls
  /-- The plain-HTTP `TcpListener::bind` failed: `Err` return, exit
  non-zero (main.rs:361). -/
  | fatalBind
  /-- The serve loop ran and ended (shutdown signal or server error):
  `pid.yaml` cleared, exit 0 (main.rs:350-380). -/
  | servedOk
  /-- The TLS-branch server future returned an error (this is where a TLS
  bind failure surfaces): only printed, so the fall-through still clears
  `pid.yaml` and exits 0 (main.rs:350-359, 376-380). -/
  | tlsServeError
deriving DecidableEq, Repr

/-- Whether a `StartResult` is an `Err` return from `main` (anyhow turns
it into a non-zero process exit). -/
def startExitsNonzero : StartResult → Bool
  | .fatalGit | .fatalAddr | .fatalTls | .fatalBind => true
  | _ => false

/-- The `RunInfo` a fresh start persists (main.rs:301-306). -/
def freshRunInfo (env : StartEnv) : RunInfo :=
  { pid := env.pid
    port := find_available_port env.net env.basePort
    auth_token := env.auth_token
    tls := env.tls_cert.isSome && env.tls_key.isSome }

/-- The fresh-start tail of `main` (main.rs:246-380), entered with the
registry already empty (no record, or the stale record just cleared).
Returns the outcome together with the final registry state. -/
def run_fresh (env : StartEnv) : StartResult × Option RunInfo :=
  if env.git_url.isSome && !env.gitOk then (.fatalGit, none)
  else
    let chosen := find_available_port env.net env.basePort
    if !env.net.hostParses then (.fatalAddr, none)
    else
      let tls_enabled := env.tls_cert.isSome && env.tls_key.isSome
      let info : RunInfo :=
        { pid := env.pid, port := chosen, auth_token := env.auth_token, tls := tls_enabled }
      if tls_enabled then
        if !env.tlsLoadOk then (.fatalTls, some info)
        else if !env.bindOk then (.tlsServeError, none)
        else (.servedOk, none)
      else
        if !env.bindOk then (.fatalBind, some info)
        else (.servedOk, none)

/-- The daemonized start path of `main` (main.rs:206-380): consult the
registry, attach to a live instance, or clear a stale record and start
fresh. -/
def run_start (env : StartEnv) : StartResult × Option RunInfo :=
  match env.prior with
  | some info =>
    if env.probe127 info.port then (.alreadyRunning (runUrl info), some info)
    else run_fresh env
  | none => run_fresh env

/-! ## The stop path (main.rs:1192-1242) -/

/-- Everything a `--stop` invocation observes, in the order
`handle_stop_command` consults it. -/
structure StopEnv where
  /-- Parsed content of `run/pid.yaml`. -/
  record : Option RunInfo
  /-- `port_is_open(info.port)` at entry. -/
  initialOpen : Bool
  /-- Outcome of `send_shutdown_request` (connect/write/read errors and an
  unexpected response line both surface as `Err`). -/
  sendResult : Except String Unit
  /-- `port_is_open(info.port)` at the `i`-th iteration of the wait loop
  (each preceded by a 100ms sleep; 50 iterations ≈ 5 seconds). -/
  pollOpen : Nat → Bool

/-- How a `--stop` invocation reports. -/
inductive StopOutcome where
  /-- "No tbl server is currently running."  (no record). -/
  | notRunning
  /-- "No tbl server is currently running (stale pid file cleaned up)." -/
  | staleCleaned
  /-- "Server stopped successfully."  (port observed closed). -/
  | stopped
  /-- "Server may still be shutting down."  (port still open after the
  polling window). -/
  | mayStillBeShuttingDown
  /-- "Failed to send shutdown request: …" (communication failure). -/
  | sendFailed (msg : String)
deriving DecidableEq, Repr

/-- The `for _ in 0..50` wait loop (main.rs:1223-1229) with the remaining
iteration count as fuel: true iff some poll in the window sees the port
closed. -/
def pollStopped (pollOpen : Nat → Bool) : Nat → Nat → Bool
  | 0, _ => false
  | n + 1, i => if !pollOpen i then true else pollStopped pollOpen n (i + 1)

/-- Mirrors `handle_stop_command` (main.rs:1192-1242): outcome together
with the final registry state.  Note the record is cleared only on the
stale path — a successfully signalled server clears it itself on
shutdown. -/
def handle_stop_command (env : StopEnv) : StopOutcome × Option RunInfo :=
  match env.record with
  | none => (.notRunning, none)
  | some info =>
    if !env.initialOpen then (.staleCleaned, none)
    else
      match env.sendResult with
      | .ok _ =>
        if pollStopped env.pollOpen 50 0 then (.stopped, some info)
        else (.mayStillBeShuttingDown, some info)
      | .error e => (.sendFailed e, some info)

/-! ## Concrete environments used to instantiate the theorems -/

/-- A fresh-start environment: empty registry, parseable loopback host,
all ports free, no git URL, no TLS, successful bind. -/
def sampleStartEnv : StartEnv where
  prior := none
  probe127 := fun _ => false
  git_url := none
  gitOk := true
  net := ⟨true, fun _ => false⟩
  basePort := 1234
  tls_cert := none
  tls_key := none
  tlsLoadOk := true
  bindOk := true
  auth_token := "tok"
  pid := 9

/-- An environment whose only deviation from a clean start is that the
plain-HTTP listener bind fails. -/
def cexStartEnv : StartEnv where
  prior := none
  probe127 := fun _ => false
  git_url := none
  gitOk := true
  net := ⟨true, fun _ => false⟩
  basePort := 1234
  tls_cert := none
  tls_key := none
  tlsLoadOk := true
  bindOk := false
  auth_token := "sekret"
  pid := 42

/-!
# Theorems
-/

/-! ## Port allocation lemmas -/

theorem probeAt_satAdd (base : Nat) : ∀ k, probeAt (satAdd base) k = probeAt base (k + 1)
  | 0 => rfl
  | k + 1 => by simp only [probeAt, probeAt_satAdd base k]

theorem findLoop_of_no_hit (env : NetEnv) (base : Nat) :
    ∀ n port, (∀ k, k < n → (env.hostParses && !env.occupied (probeAt port k)) = false) →
      findLoop env base n port = base := by
  intro n
  induction n with
  | zero => intro port _; rfl
  | succ n ih =>
    intro port h
    have h0 := h 0 (Nat.succ_pos n)
    simp only [probeAt] at h0
    simp only [findLoop, h0, if_false, Bool.false_eq_true]
    exact ih (satAdd port) fun k hk => by
      rw [probeAt_satAdd]
      exact h (k + 1) (Nat.succ_lt_succ hk)

theorem findLoop_first_free (env : NetEnv) (base : Nat) (hp : env.hostParses = true) :
    ∀ n j port, j < n → env.occupied (probeAt port j) = false →
      (∀ k, k < j → env.occupied (probeAt port k) = true) →
      findLoop env base n port = probeAt port j := by
  intro n
  induction n with
  | zero => intro j port hj _ _; exact absurd hj (Nat.not_lt_zero j)
  | succ n ih =>
    intro j port hj hfree hocc
    match j with
    | 0 =>
      simp only [probeAt] at hfree ⊢
      simp [findLoop, hp, hfree]
    | j + 1 =>
      have h0 : env.occupied port = true := by
        simpa [probeAt] using hocc 0 (Nat.succ_pos j)
      have step : findLoop env base (n + 1) port = findLoop env base n (satAdd port) := by
        simp [findLoop, hp, h0]
      rw [step]
      have ihres := ih j (satAdd port) (Nat.lt_of_succ_lt_succ hj)
        (by rw [probeAt_satAdd]; exact hfree)
        (fun k hk => by rw [probeAt_satAdd]; exact hocc (k + 1) (Nat.succ_lt_succ hk))
      rw [ihres, probeAt_satAdd]

/-- C3: when the host parses (so probing happens at all, cf. C10),
`find_available_port` returns the first of the 100 probed ports whose
connect fails; in particular with 1234-1236 occupied and 1237 free it
returns 1237 from base 1234; and when every probed port accepts a
connection it falls back to the base port unchanged.  `probeAt base k` is
the port probed on iteration `k`: `k` saturating increments above
`base`. -/
theorem claim_C3 (env : NetEnv) (base : Nat) (hp : env.hostParses = true) :
    ((∀ k, k < 100 → env.occupied (probeAt base k) = true) →
      find_available_port env base = base)
  ∧ (∀ j, j < 100 → env.occupied (probeAt base j) = false →
      (∀ k, k < j → env.occupied (probeAt base k) = true) →
      find_available_port env base = probeAt base j)
  ∧ (env.occupied 1234 = true → env.occupied 1235 = true →
      env.occupied 1236 = true → env.occupied 1237 = false →
      find_available_port env 1234 = 1237) := by
  refine ⟨?_, ?_, ?_⟩
  · intro h
    exact findLoop_of_no_hit env base 100 base fun k hk => by simp [h k hk]
  · intro j hj hfree hocc
    exact findLoop_first_free env base hp 100 j base hj hfree hocc
  · intro h4 h5 h6 h7
    have : find_available_port env 1234 = probeAt 1234 3 := by
      refine findLoop_first_free env 1234 hp 100 3 1234 (by omega) ?_ ?_
      · show env.occupied (probeAt 1234 3) = false
        have e : probeAt 1234 3 = 1237 := by decide
        rw [e]; exact h7
      · intro k hk
        interval_cases k
        · simpa [probeAt] using h4
        · have e : probeAt 1234 1 = 1235 := by decide
          rw [e]; exact h5
        · have e : probeAt 1234 2 = 1236 := by decide
          rw [e]; exact h6
    rw [this]
    decide

/-- Witness for C3 at the concrete occupancy of the claim: ports
1234-1236 occupied, everything else free. -/
theorem claim_C3_witness :
    find_available_port ⟨true, fun p => p == 1234 || p == 1235 || p == 1236⟩ 1234 = 1237 :=
  (claim_C3 ⟨true, fun p => p == 1234 || p == 1235 || p == 1236⟩ 1234 rfl).2.2
    rfl rfl rfl rfl

/-- C10: when `"{host}:{port}"` does not parse as a numeric `SocketAddr`
(any non-literal-IP host such as `localhost`), no iteration's probe guard
can fire, so `find_available_port` returns the base port unchanged no
matter which ports are occupied. -/
theorem claim_C10 (env : NetEnv) (base : Nat) (hp : env.hostParses = false) :
    find_available_port env base = base :=
  findLoop_of_no_hit env base 100 base fun k _ => by simp [hp]

/-- Witness for C10: a non-parsing host with every port occupied still
yields the base port. -/
theorem claim_C10_witness :
    find_available_port ⟨false, fun _ => true⟩ 1234 = 1234 :=
  claim_C10 ⟨false, fun _ => true⟩ 1234 rfl

/-! ## Basic-auth gate lemmas -/

theorem requireBasicAuth_configured (st : AppState) (user pass : String) (h : Headers)
    (hu : st.config.basic_user = some user) (hp : st.config.basic_pass = some pass) :
    requireBasicAuth st h =
      if !check_basic_auth h user pass then some ⟨401, "basic auth required"⟩
      else none := by
  unfold requireBasicAuth
  rw [hu, hp]

theorem requireBasicAuth_no_user (st : AppState) (h : Headers)
    (hu : st.config.basic_user = none) :
    requireBasicAuth st h = none := by
  unfold requireBasicAuth
  rw [hu]

/-- C4: `GET /bootstrap` returns 400 when the `token` query parameter is
absent, 403 when it differs from the in-memory secret, and on exact match
the success page, whose script sets the `tbl_token` cookie to the secret
(spliced verbatim into `const token = "…"`, then assigned to
`document.cookie`) and then redirects to the application root. -/
theorem claim_C4 (st : AppState) (q : BootstrapQuery) :
    (q.token = none → bootstrap_handler st q = ⟨400, "missing token in query"⟩)
  ∧ (∀ t, q.token = some t → t ≠ st.auth_token →
      bootstrap_handler st q = ⟨403, "invalid bootstrap token"⟩)
  ∧ (q.token = some st.auth_token →
      bootstrap_handler st q = ⟨200, bootstrap_page_html st.auth_token⟩
      ∧ (∃ pre post, bootstrap_page_html st.auth_token =
          pre ++ ("const token = \"" ++ st.auth_token ++
            "\";\n      document.cookie = \"tbl_token=\" + token + \"; SameSite=Lax; Path=/\";")
            ++ post)
      ∧ (∃ pre post, bootstrap_page_html st.auth_token =
          pre ++ "window.location.replace(\"/\");" ++ post)) := by
  refine ⟨?_, ?_, ?_⟩
  · intro hq
    simp [bootstrap_handler, hq]
  · intro t hq ht
    simp [bootstrap_handler, hq, ht]
  · intro hq
    refine ⟨by simp [bootstrap_handler, hq], ?_, ?_⟩
    · refine ⟨bsHead, bsTail, ?_⟩
      simp [bootstrap_page_html, bsCookieSet, String.append_assoc]
    · refine ⟨bsHead ++ "const token = \"" ++ st.auth_token ++ bsCookieSet
        ++ "\n      setTimeout(function() \x7b\n        ",
        "\n      \x7d, 400);\n    \x7d)();\n  </script>\n</body>\n</html>", ?_⟩
      simp [bootstrap_page_html, bsCookieSet, bsTail, String.append_assoc]

/-- Witness for C4: a concrete state and the three query shapes. -/
theorem claim_C4_witness :
    bootstrap_handler ⟨"abc", {}, some ()⟩ ⟨some "abc"⟩
      = ⟨200, bootstrap_page_html "abc"⟩
  ∧ bootstrap_handler ⟨"abc", {}, some ()⟩ ⟨none⟩ = ⟨400, "missing token in query"⟩
  ∧ bootstrap_handler ⟨"abc", {}, some ()⟩ ⟨some "nope"⟩
      = ⟨403, "invalid bootstrap token"⟩ :=
  ⟨((claim_C4 ⟨"abc", {}, some ()⟩ ⟨some "abc"⟩).2.2 rfl).1,
   (claim_C4 ⟨"abc", {}, some ()⟩ ⟨none⟩).1 rfl,
   (claim_C4 ⟨"abc", {}, some ()⟩ ⟨some "nope"⟩).2.1 "nope" rfl (by decide)⟩

/-- C5: with basic-auth credentials configured, `/api/v1/ping` and
`/api/v1/shutdown` require both gates: correct basic-auth with a missing
or wrong cookie is rejected; a wrong or missing basic-auth is rejected
with the 401 basic-auth response regardless of the cookie (the basic-auth
check runs first); only both gates together succeed. -/
theorem claim_C5 (st : AppState) (user pass : String)
    (hu : st.config.basic_user = some user) (hp : st.config.basic_pass = some pass) :
    (∀ h, check_basic_auth h user pass = true →
      extract_token_from_cookie h ≠ some st.auth_token →
      ping_handler st h = ⟨401, "missing or invalid auth cookie"⟩
      ∧ (shutdown_handler st h).1 = ⟨401, "missing or invalid auth cookie"⟩)
  ∧ (∀ h, check_basic_auth h user pass = false →
      ping_handler st h = ⟨401, "basic auth required"⟩
      ∧ (shutdown_handler st h).1 = ⟨401, "basic auth required"⟩)
  ∧ (∀ h, check_basic_auth h user pass = true →
      extract_token_from_cookie h = some st.auth_token →
      ping_handler st h = ⟨200, "\x7b\"status\":\"ok\"\x7d"⟩
      ∧ (shutdown_handler st h).1 = ⟨200, "\x7b\"status\":\"shutting_down\"\x7d"⟩) := by
  refine ⟨?_, ?_, ?_⟩
  · intro h hcb hck
    have hr : requireBasicAuth st h = none := by
      rw [requireBasicAuth_configured st user pass h hu hp, hcb]
      rfl
    constructor
    · unfold ping_handler
      rw [hr]
      simp [hck]
    · unfold shutdown_handler
      rw [hr]
      simp [hck]
  · intro h hcb
    have hr : requireBasicAuth st h = some ⟨401, "basic auth required"⟩ := by
      rw [requireBasicAuth_configured st user pass h hu hp, hcb]
      rfl
    constructor
    · unfold ping_handler
      rw [hr]
    · unfold shutdown_handler
      rw [hr]
  · intro h hcb hck
    have hr : requireBasicAuth st h = none := by
      rw [requireBasicAuth_configured st user pass h hu hp, hcb]
      rfl
    constructor
    · unfold ping_handler
      rw [hr]
      simp [hck]
    · unfold shutdown_handler
      rw [hr]
      simp [hck]

/-- Witness for C5: credentials `user`/`pass` (header
`Basic dXNlcjpwYXNz`), secret `sek`, at the three gate combinations. -/
theorem claim_C5_witness :
    ping_handler ⟨"sek", { basic_user := some "user", basic_pass := some "pass" }, some ()⟩
        ⟨some "tbl_token=sek", some "Basic dXNlcjpwYXNz"⟩ = ⟨200, "\x7b\"status\":\"ok\"\x7d"⟩
  ∧ ping_handler ⟨"sek", { basic_user := some "user", basic_pass := some "pass" }, some ()⟩
        ⟨none, some "Basic dXNlcjpwYXNz"⟩ = ⟨401, "missing or invalid auth cookie"⟩
  ∧ ping_handler ⟨"sek", { basic_user := some "user", basic_pass := some "pass" }, some ()⟩
        ⟨some "tbl_token=sek", none⟩ = ⟨401, "basic auth required"⟩ :=
  ⟨((claim_C5 _ "user" "pass" rfl rfl).2.2
      ⟨some "tbl_token=sek", some "Basic dXNlcjpwYXNz"⟩ (by decide) (by decide)).1,
   ((claim_C5 _ "user" "pass" rfl rfl).1
      ⟨none, some "Basic dXNlcjpwYXNz"⟩ (by decide) (by decide)).1,
   ((claim_C5 _ "user" "pass" rfl rfl).2.1
      ⟨some "tbl_token=sek", none⟩ (by decide)).1⟩

/-- C6: a second authenticated shutdown request right after a first one is
a safe no-op, not a fault: the first `take` consumes the one-shot sender
(signal sent iff it was still present), the second `take` finds the slot
empty and sends nothing, and the second request still receives the normal
200 `\x7b"status":"shutting_down"\x7d` confirmation. -/
theorem claim_C6 (st : AppState) (h : Headers)
    (hb : requireBasicAuth st h = none)
    (hc : extract_token_from_cookie h = some st.auth_token) :
    (shutdown_handler st h).1 = ⟨200, "\x7b\"status\":\"shutting_down\"\x7d"⟩
  ∧ (shutdown_handler st h).2.2 = st.shutdown_tx.isSome
  ∧ ((shutdown_handler st h).2.1).shutdown_tx = none
  ∧ (shutdown_handler (shutdown_handler st h).2.1 h).1
      = ⟨200, "\x7b\"status\":\"shutting_down\"\x7d"⟩
  ∧ (shutdown_handler (shutdown_handler st h).2.1 h).2.2 = false := by
  have e1 : shutdown_handler st h =
      (⟨200, "\x7b\"status\":\"shutting_down\"\x7d"⟩,
        { st with shutdown_tx := none }, st.shutdown_tx.isSome) := by
    unfold shutdown_handler
    rw [hb]
    simp [hc]
  have hb' : requireBasicAuth { st with shutdown_tx := none } h = none := hb
  have e2 : shutdown_handler { st with shutdown_tx := none } h =
      (⟨200, "\x7b\"status\":\"shutting_down\"\x7d"⟩,
        { st with shutdown_tx := none }, false) := by
    unfold shutdown_handler
    rw [hb']
    simp [show extract_token_from_cookie h =
      some (AppState.auth_token { st with shutdown_tx := none }) from hc]
  rw [e1]
  exact ⟨rfl, rfl, rfl, by rw [e2], by rw [e2]⟩

/-- Witness for C6 at a concrete state and request. -/
theorem claim_C6_witness :
    (shutdown_handler ⟨"sek", {}, some ()⟩ ⟨some "tbl_token=sek", none⟩).1
      = ⟨200, "\x7b\"status\":\"shutting_down\"\x7d"⟩
  ∧ (shutdown_handler
      (shutdown_handler ⟨"sek", {}, some ()⟩ ⟨some "tbl_token=sek", none⟩).2.1
      ⟨some "tbl_token=sek", none⟩).1
      = ⟨200, "\x7b\"status\":\"shutting_down\"\x7d"⟩ :=
  ⟨(claim_C6 ⟨"sek", {}, some ()⟩ ⟨some "tbl_token=sek", none⟩ (by decide) (by decide)).1,
   (claim_C6 ⟨"sek", {}, some ()⟩ ⟨some "tbl_token=sek", none⟩ (by decide) (by decide)).2.2.2.1⟩

/-! ## Cookie round-trip lemmas -/

theorem dropWhile_of_none {α : Type} (p : α → Bool) :
    ∀ l : List α, (∀ c ∈ l, p c = false) → l.dropWhile p = l := by
  intro l
  induction l with
  | nil => intro _; rfl
  | cons c cs _ =>
    intro h
    have hc := h c (List.mem_cons_self c cs)
    simp [List.dropWhile, hc]

theorem trimList_of_no_ws (l : List Char) (h : ∀ c ∈ l, c.isWhitespace = false) :
    trimList l = l := by
  unfold trimList
  rw [dropWhile_of_none _ l h,
    dropWhile_of_none _ l.reverse (fun c hc => h c (List.mem_reverse.mp hc)),
    List.reverse_reverse]

theorem splitList_of_no_sep (sep : Char) :
    ∀ l : List Char, (∀ c ∈ l, ¬(c = sep)) → splitList sep l = [l] := by
  intro l
  induction l with
  | nil => intro _; rfl
  | cons c cs ih =>
    intro h
    have hc : ¬(c = sep) := h c (List.mem_cons_self c cs)
    have hcs := ih fun d hd => h d (List.mem_cons_of_mem c hd)
    simp [splitList, hc, hcs]

theorem splitOnceChar_append (sep : Char) :
    ∀ xs ys, (∀ c ∈ xs, ¬(c = sep)) →
      splitOnceChar sep (xs ++ sep :: ys) = some (xs, ys) := by
  intro xs
  induction xs with
  | nil => intro ys _; simp [splitOnceChar]
  | cons c cs ih =>
    intro ys h
    have hc : ¬(c = sep) := h c (List.mem_cons_self c cs)
    have hcs := ih ys fun d hd => h d (List.mem_cons_of_mem c hd)
    simp [splitOnceChar, hc, hcs]

theorem isAlphanum_not_ws (c : Char) (h : c.isAlphanum = true) :
    c.isWhitespace = false := by
  cases hx : c.isWhitespace with
  | false => rfl
  | true =>
    exfalso
    simp only [Char.isWhitespace, Bool.or_eq_true, decide_eq_true_eq] at hx
    rcases hx with ((h1 | h1) | h1) | h1 <;> (subst h1; exact absurd h (by decide))

theorem isAlphanum_ne_semicolon (c : Char) (h : c.isAlphanum = true) : ¬(c = ';') := by
  intro hc
  subst hc
  exact absurd h (by decide)

/-- The `tbl_token=<secret>` cookie the bootstrap page's script sets is
read back by `extract_token_from_cookie` as exactly the secret, for any
secret made of alphanumeric characters (as `generate_token`'s hex output
is). -/
theorem extract_tbl_cookie (t : String) (auth : Option String)
    (ht : ∀ c ∈ t.data, c.isAlphanum = true) :
    extract_token_from_cookie ⟨some ("tbl_token=" ++ t), auth⟩ = some t := by
  show findTblToken (splitList ';' ("tbl_token=" ++ t).data) = some t
  rw [String.data_append]
  have hfix1 : ∀ c ∈ "tbl_token=".data, ¬(c = ';') := by decide
  have hfix2 : ∀ c ∈ "tbl_token=".data, c.isWhitespace = false := by decide
  have hnosep : ∀ c ∈ "tbl_token=".data ++ t.data, ¬(c = ';') := by
    intro c hc
    rcases List.mem_append.mp hc with h1 | h2
    · exact hfix1 c h1
    · exact isAlphanum_ne_semicolon c (ht c h2)
  rw [splitList_of_no_sep ';' _ hnosep]
  have hnows : ∀ c ∈ "tbl_token=".data ++ t.data, c.isWhitespace = false := by
    intro c hc
    rcases List.mem_append.mp hc with h1 | h2
    · exact hfix2 c h1
    · exact isAlphanum_not_ws c (ht c h2)
  have hshape : "tbl_token=".data ++ t.data = "tbl_token".data ++ '=' :: t.data := by
    rw [show "tbl_token=".data = "tbl_token".data ++ ['='] from by decide]
    simp
  unfold findTblToken
  rw [trimList_of_no_ws _ hnows, hshape,
    splitOnceChar_append '=' _ _ (by decide)]
  rfl

/-- C8: after a successful bootstrap handshake (the handler answered with
the cookie-setting page for the exact secret), a request carrying only the
resulting `tbl_token` cookie and no query token passes the ping
authorization and gets `200 \x7b"status":"ok"\x7d`; a request with neither
cookie nor token gets the 401 authorization error (the handler is a total
function — no crash).  Stated for states without basic-auth credentials,
the configuration in which the claim's cookie-only request can
succeed. -/
theorem claim_C8 (st : AppState)
    (hb : st.config.basic_user = none)
    (ht : ∀ c ∈ st.auth_token.data, c.isAlphanum = true) :
    bootstrap_handler st ⟨some st.auth_token⟩ = ⟨200, bootstrap_page_html st.auth_token⟩
  ∧ ping_handler st ⟨some ("tbl_token=" ++ st.auth_token), none⟩
      = ⟨200, "\x7b\"status\":\"ok\"\x7d"⟩
  ∧ ping_handler st ⟨none, none⟩ = ⟨401, "missing or invalid auth cookie"⟩ := by
  refine ⟨by simp [bootstrap_handler], ?_, ?_⟩
  · unfold ping_handler
    rw [requireBasicAuth_no_user st _ hb]
    simp [extract_tbl_cookie st.auth_token none ht]
  · unfold ping_handler
    rw [requireBasicAuth_no_user st _ hb]
    simp [extract_token_from_cookie]

/-- Witness for C8 at the concrete secret `abc123`. -/
theorem claim_C8_witness :
    ping_handler ⟨"abc123", {}, some ()⟩ ⟨some ("tbl_token=" ++ "abc123"), none⟩
      = ⟨200, "\x7b\"status\":\"ok\"\x7d"⟩
  ∧ ping_handler ⟨"abc123", {}, some ()⟩ ⟨none, none⟩
      = ⟨401, "missing or invalid auth cookie"⟩ :=
  ⟨(claim_C8 ⟨"abc123", {}, some ()⟩ rfl (by decide)).2.1,
   (claim_C8 ⟨"abc123", {}, some ()⟩ rfl (by decide)).2.2⟩

/-! ## Startup and stop path claims -/

/-- C2: when a registry record is present and its port is still accepting
connections, the second start invocation attaches: it prints the existing
instance's bootstrap URL (scheme per the recorded TLS flag), leaves the
record alone, exits 0, does not reach the serve/bind paths, and its entire
outcome is independent of whether a bind would succeed (no second listener
is ever bound). -/
theorem run_start_attached (env : StartEnv) (info : RunInfo)
    (hr : env.prior = some info) (ho : env.probe127 info.port = true) :
    run_start env = (.alreadyRunning (runUrl info), some info) := by
  unfold run_start
  rw [hr]
  simp [ho]

theorem claim_C2 (env : StartEnv) (info : RunInfo)
    (hr : env.prior = some info) (ho : env.probe127 info.port = true) :
    run_start env = (.alreadyRunning (runUrl info), some info)
  ∧ startExitsNonzero (run_start env).1 = false
  ∧ (run_start env).1 ≠ .servedOk
  ∧ (run_start env).1 ≠ .tlsServeError
  ∧ (∀ b, run_start { env with bindOk := b } = run_start env)
  ∧ runUrl info = (if info.tls then "https" else "http")
      ++ "://127.0.0.1:" ++ toString info.port ++ "/bootstrap?token="
      ++ info.auth_token := by
  have e := run_start_attached env info hr ho
  refine ⟨e, by simp [e, startExitsNonzero], by rw [e]; simp, by rw [e]; simp, ?_, rfl⟩
  intro b
  rw [run_start_attached { env with bindOk := b } info hr ho, e]

/-- Witness for C2 at a concrete live record. -/
theorem claim_C2_witness :
    run_start { sampleStartEnv with
        prior := some ⟨7, 2000, "tok", false⟩, probe127 := fun _ => true }
      = (.alreadyRunning (runUrl ⟨7, 2000, "tok", false⟩), some ⟨7, 2000, "tok", false⟩) :=
  (claim_C2 { sampleStartEnv with
      prior := some ⟨7, 2000, "tok", false⟩, probe127 := fun _ => true }
    ⟨7, 2000, "tok", false⟩ rfl rfl).1

/-- C7: a loaded record whose port refuses the liveness probe is treated
exactly like an absent record.  On the start path the whole invocation
computes the same outcome and final registry state as with no record at
all (in particular no field of the stale record is consulted); on the stop
path the stale record is cleared and the invocation returns without
sending anything (the outcome is independent of the send and poll
observations). -/
theorem claim_C7 :
    (∀ (env : StartEnv) (info : RunInfo), env.probe127 info.port = false →
      run_start { env with prior := some info } = run_start { env with prior := none })
  ∧ (∀ (senv : StopEnv) (info : RunInfo), senv.record = some info →
      senv.initialOpen = false →
      handle_stop_command senv = (.staleCleaned, none)) := by
  constructor
  · intro env info hprobe
    have e : run_start { env with prior := some info }
        = if env.probe127 info.port = true
          then (.alreadyRunning (runUrl info), some info)
          else run_fresh { env with prior := some info } := rfl
    rw [e, hprobe]
    simp only [Bool.false_eq_true, if_false]
    rfl
  · intro senv info hr ho
    unfold handle_stop_command
    rw [hr]
    simp [ho]

/-- Witness for C7: a stale record (port closed) on both paths. -/
theorem claim_C7_witness :
    run_start { sampleStartEnv with prior := some ⟨3, 4321, "tk", false⟩ }
      = run_start { sampleStartEnv with prior := none }
  ∧ handle_stop_command ⟨some ⟨3, 4321, "tk", false⟩, false, .ok (), fun _ => true⟩
      = (.staleCleaned, none) :=
  ⟨claim_C7.1 sampleStartEnv ⟨3, 4321, "tk", false⟩ rfl,
   claim_C7.2 ⟨some ⟨3, 4321, "tk", false⟩, false, .ok (), fun _ => true⟩
     ⟨3, 4321, "tk", false⟩ rfl rfl⟩

/-! ## C1: fatal startup errors and the registry -/

/-- Counterexample to C1 as stated: with an empty registry, a parseable
host, every port free, TLS disabled and a failing plain-HTTP bind, the
invocation hits a fatal startup error (bind failure, `Err` return, exit
non-zero) — yet the registry is NOT left in its pre-invocation state: a
fresh `RunRecord` was persisted at main.rs:307, before the bind at
main.rs:361, and the `Err` return path never removes it (the cleanup at
main.rs:377 sits after the serve block). -/
theorem claim_C1_counterexample :
    startExitsNonzero (run_start cexStartEnv).1 = true
  ∧ (run_start cexStartEnv).1 = .fatalBind
  ∧ cexStartEnv.prior = none
  ∧ (run_start cexStartEnv).2 = some ⟨42, 1234, "sekret", false⟩
  ∧ (run_start cexStartEnv).2 ≠ cexStartEnv.prior := by
  refine ⟨rfl, rfl, rfl, rfl, ?_⟩
  decide

/-- C1 (amended): a fatal startup error still exits non-zero, but the
registry is not always left untouched.  Failures before the record write
(missing git, unparseable address) leave the registry empty; a TLS-load
failure or a plain-HTTP bind failure happens after the fresh record was
written and leaves it persisted (a later invocation discards it as stale);
and a bind failure in the TLS branch is not a fatal error at all — it
surfaces as a printed server error with the record cleared and exit 0. -/
theorem claim_C1_amended (env : StartEnv) (hprior : env.prior = none) :
    ((env.git_url.isSome && !env.gitOk) = true →
      run_start env = (.fatalGit, none) ∧ startExitsNonzero .fatalGit = true)
  ∧ ((env.git_url.isSome && !env.gitOk) = false → env.net.hostParses = false →
      run_start env = (.fatalAddr, none) ∧ startExitsNonzero .fatalAddr = true)
  ∧ ((env.git_url.isSome && !env.gitOk) = false → env.net.hostParses = true →
      (env.tls_cert.isSome && env.tls_key.isSome) = true → env.tlsLoadOk = false →
      run_start env = (.fatalTls, some (freshRunInfo env))
      ∧ startExitsNonzero .fatalTls = true)
  ∧ ((env.git_url.isSome && !env.gitOk) = false → env.net.hostParses = true →
      (env.tls_cert.isSome && env.tls_key.isSome) = false → env.bindOk = false →
      run_start env = (.fatalBind, some (freshRunInfo env))
      ∧ startExitsNonzero .fatalBind = true)
  ∧ ((env.git_url.isSome && !env.gitOk) = false → env.net.hostParses = true →
      (env.tls_cert.isSome && env.tls_key.isSome) = true → env.tlsLoadOk = true →
      env.bindOk = false →
      run_start env = (.tlsServeError, none)
      ∧ startExitsNonzero .tlsServeError = false) := by
  have estart : run_start env = run_fresh env := by
    unfold run_start
    rw [hprior]
  rw [estart]
  refine ⟨?_, ?_, ?_, ?_, ?_⟩
  · intro hgit
    exact ⟨by unfold run_fresh; rw [hgit]; rfl, rfl⟩
  · intro hgit haddr
    exact ⟨by unfold run_fresh; rw [hgit, haddr]; rfl, rfl⟩
  · intro hgit haddr htls hload
    refine ⟨?_, rfl⟩
    unfold run_fresh freshRunInfo
    rw [hgit, haddr, htls, hload]
    rfl
  · intro hgit haddr htls hbind
    refine ⟨?_, rfl⟩
    unfold run_fresh freshRunInfo
    rw [hgit, haddr, htls, hbind]
    rfl
  · intro hgit haddr htls hload hbind
    refine ⟨?_, rfl⟩
    unfold run_fresh
    rw [hgit, haddr, htls, hload, hbind]
    rfl

/-- Witness for the amended C1: the counterexample environment hits the
plain-bind conjunct. -/
theorem claim_C1_amended_witness :
    run_start cexStartEnv = (.fatalBind, some (freshRunInfo cexStartEnv))
  ∧ startExitsNonzero .fatalBind = true :=
  (claim_C1_amended cexStartEnv rfl).2.2.2.1 rfl rfl rfl rfl

/-! ## C9: stop-command outcome trichotomy -/

theorem pollStopped_iff (f : Nat → Bool) :
    ∀ n i, pollStopped f n i = true ↔ ∃ j, j < n ∧ f (i + j) = false := by
  intro n
  induction n with
  | zero => intro i; simp [pollStopped]
  | succ n ih =>
    intro i
    cases hf : f i with
    | false =>
      have hres : pollStopped f (n + 1) i = true := by
        simp [pollStopped, hf]
      constructor
      · intro _
        exact ⟨0, Nat.succ_pos n, by simpa using hf⟩
      · intro _
        exact hres
    | true =>
      have step : pollStopped f (n + 1) i = pollStopped f n (i + 1) := by
        simp [pollStopped, hf]
      rw [step, ih (i + 1)]
      constructor
      · rintro ⟨j, hj, hfj⟩
        refine ⟨j + 1, Nat.succ_lt_succ hj, ?_⟩
        rw [show i + (j + 1) = i + 1 + j by omega]
        exact hfj
      · rintro ⟨j, hj, hfj⟩
        match j with
        | 0 =>
          rw [show i + 0 = i by omega] at hfj
          rw [hf] at hfj
          exact absurd hfj (by simp)
        | j + 1 =>
          refine ⟨j, Nat.lt_of_succ_lt_succ hj, ?_⟩
          rw [show i + 1 + j = i + (j + 1) by omega]
          exact hfj

/-- C9: with a live record, the stop command reports `stopped` exactly
when the shutdown request went through AND some poll within the 50-poll
(≈5s) window observed the port closed; it reports the distinct
`mayStillBeShuttingDown` outcome exactly when the request went through but
every poll in the window still saw the port open; and a failure to send or
complete the request is the third, distinct `sendFailed` outcome. -/
theorem claim_C9 (env : StopEnv) (info : RunInfo)
    (hr : env.record = some info) (ho : env.initialOpen = true) :
    ((handle_stop_command env).1 = .stopped ↔
      env.sendResult = .ok () ∧ ∃ i, i < 50 ∧ env.pollOpen i = false)
  ∧ ((handle_stop_command env).1 = .mayStillBeShuttingDown ↔
      env.sendResult = .ok () ∧ ∀ i, i < 50 → env.pollOpen i = true)
  ∧ (∀ e, (handle_stop_command env).1 = .sendFailed e ↔
      env.sendResult = .error e) := by
  have epoll := pollStopped_iff env.pollOpen 50 0
  simp only [Nat.zero_add] at epoll
  cases hs : env.sendResult with
  | ok u =>
    cases u
    cases hps : pollStopped env.pollOpen 50 0 with
    | true =>
      have hres : (handle_stop_command env).1 = .stopped := by
        unfold handle_stop_command
        rw [hr, hs]
        simp [ho, hps]
      rw [hps] at epoll
      simp only [true_iff, iff_true, eq_self_iff_true, true_and] at epoll
      obtain ⟨j, hj, hfj⟩ := epoll
      rw [hres]
      refine ⟨?_, ?_, ?_⟩
      · simp only [true_iff, iff_true, eq_self_iff_true, true_and]
        exact ⟨j, hj, hfj⟩
      · constructor
        · intro hcon
          exact absurd hcon (by simp)
        · rintro ⟨_, hall⟩
          rw [hall j hj] at hfj
          exact absurd hfj (by simp)
      · intro e
        simp
    | false =>
      have hres : (handle_stop_command env).1 = .mayStillBeShuttingDown := by
        unfold handle_stop_command
        rw [hr, hs]
        simp [ho, hps]
      rw [hps] at epoll
      simp only [false_iff, iff_false, Bool.false_eq_true] at epoll
      rw [hres]
      refine ⟨?_, ?_, ?_⟩
      · constructor
        · intro hcon
          exact absurd hcon (by simp)
        · rintro ⟨_, hex⟩
          exact absurd hex epoll
      · simp only [true_iff, iff_true, eq_self_iff_true, true_and]
        intro i hi
        cases hoi : env.pollOpen i with
        | true => rfl
        | false => exact absurd ⟨i, hi, hoi⟩ epoll
      · intro e
        simp
  | error e0 =>
    have hres : (handle_stop_command env).1 = .sendFailed e0 := by
      unfold handle_stop_command
      rw [hr, hs]
      simp [ho]
    rw [hres]
    refine ⟨by simp, by simp, ?_⟩
    intro e
    simp

/-- Witness for C9: the port is observed closed on the fourth poll. -/
theorem claim_C9_witness :
    (handle_stop_command
      ⟨some ⟨1, 1234, "t", false⟩, true, .ok (), fun i => decide (i < 3)⟩).1
      = .stopped :=
  (claim_C9 ⟨some ⟨1, 1234, "t", false⟩, true, .ok (), fun i => decide (i < 3)⟩
      ⟨1, 1234, "t", false⟩ rfl rfl).1.mpr
    ⟨rfl, 3, by omega, by decide⟩

end Tbl
